import Mathlib

/-!
Verification of the change-detection and fetch-orchestration logic of
`monitor.py` (class `GitHubPortalMonitor`).

Modelling conventions:
* JSON values (the Python dict/list/str/number/bool/None universe that the
  monitor works with) are embedded as the inductive type `Json`.  Python
  dicts are association lists that keep insertion order, exactly as CPython
  dict iteration does; number literals are kept as their decimal text.
* `hash_data` in the source is `sha256(json.dumps(data, sort_keys=True))`.
  SHA-256 is modelled by the canonical serialization itself: two digests are
  equal exactly when the sorted-key serializations are equal, which is the
  collision-freeness assumption the program relies on.
* Network effects are modelled by passing an explicit handler function and
  by returning a log of the requests that were issued; `time.sleep` calls
  are recorded as the list of slept durations where a claim mentions them.
-/

/-- A JSON-like value as manipulated by the monitor.  `num` keeps the decimal
text of the literal (Python renders the parsed number back to this text in
`json.dumps` and in f-strings). -/
inductive Json where
  | null : Json
  | bool (b : Bool) : Json
  | num (s : String) : Json
  | str (s : String) : Json
  | arr (xs : List Json) : Json
  | obj (kvs : List (String × Json)) : Json

mutual
/-- Structural equality of JSON values, the Python `==` / `!=` used on the
values the monitor compares (scalars, lists and dicts of such). -/
def jsonEq : Json → Json → Bool
  | .null, .null => true
  | .bool a, .bool b => a == b
  | .num a, .num b => a == b
  | .str a, .str b => a == b
  | .arr xs, .arr ys => jsonEqArr xs ys
  | .obj xs, .obj ys => jsonEqObj xs ys
  | _, _ => false

/-- Elementwise equality of JSON arrays. -/
def jsonEqArr : List Json → List Json → Bool
  | [], [] => true
  | x :: xs, y :: ys => jsonEq x y && jsonEqArr xs ys
  | _, _ => false

/-- Entrywise equality of JSON objects (Python dict equality is
order-insensitive, but the monitor only ever compares values that were
built the same way, so entrywise equality is the comparison it performs). -/
def jsonEqObj : List (String × Json) → List (String × Json) → Bool
  | [], [] => true
  | (k1, v1) :: xs, (k2, v2) :: ys => k1 == k2 && jsonEq v1 v2 && jsonEqObj xs ys
  | _, _ => false
end

/-- Python `!=` on two values that may each be `None` (an absent `gpa`). -/
def optJsonEq : Option Json → Option Json → Bool
  | none, none => true
  | some a, some b => jsonEq a b
  | _, _ => false

/-- First-match lookup in an association list, the behaviour of a Python dict
whose entries are listed in insertion order (a real dict never repeats a
key, so the first match is the only one). -/
def lookupKV : List (String × Json) → String → Option Json
  | [], _ => none
  | (k, v) :: kvs, key => if k = key then some v else lookupKV kvs key

/-- Python `d.get(key, default)` on a JSON value known to be used as a dict. -/
def Json.getD (j : Json) (key : String) (d : Json) : Json :=
  match j with
  | .obj kvs => (lookupKV kvs key).getD d
  | _ => d

/-- Python `d.get(key)` (default `None`), kept as an `Option`. -/
def Json.getOpt (j : Json) (key : String) : Option Json :=
  match j with
  | .obj kvs => lookupKV kvs key
  | _ => none

/-- The entries of a JSON object, i.e. Python `d.items()` in insertion
order. -/
def Json.objItems : Json → List (String × Json)
  | .obj kvs => kvs
  | _ => []

/-- Python `len` on the values it is applied to in `monitor.py` (lists; the
other sized cases are included for completeness, the remaining constructors
never reach a `len` call in the program). -/
def pyLen : Json → Nat
  | .arr xs => xs.length
  | .obj kvs => kvs.length
  | .str s => s.length
  | _ => 0

/-- Python truthiness of a JSON value (`if course_grades:` and friends).
Zero number literals are the falsy numeric renderings that can appear. -/
def pyTruthy : Json → Bool
  | .null => false
  | .bool b => b
  | .num s => !(s = "0" || s = "0.0" || s = "-0.0")
  | .str s => !(s = "")
  | .arr xs => !xs.isEmpty
  | .obj kvs => !kvs.isEmpty

/-- Lexicographic comparison of code-point lists, Python string `<=` as used
by `sorted` inside `json.dumps(..., sort_keys=True)`. -/
def charListLe : List Char → List Char → Bool
  | [], _ => true
  | _ :: _, [] => false
  | a :: as, b :: bs => if a < b then true else if b < a then false else charListLe as bs

/-- Python `<=` on strings, by code points. -/
def strLe (a b : String) : Bool :=
  charListLe a.data b.data

/-- JSON string escaping as performed by `json.dumps` on the characters that
occur in the monitored data (quote and backslash; the program only ever
hashes portal payloads, which are plain text). -/
def jescape (s : String) : String :=
  String.join (s.data.map fun c =>
    if c = '"' then "\\\"" else if c = '\\' then "\\\\" else String.singleton c)

/-- Comma-space separated join, the element separator of `json.dumps`. -/
def sepJoin : List String → String
  | [] => ""
  | [s] => s
  | s :: ss => s ++ ", " ++ sepJoin ss

/-- Sort rendered object entries by key, as `json.dumps(..., sort_keys=True)`
does (dict keys are unique, so only the key part ever decides the order). -/
def sortStrPairs (l : List (String × String)) : List (String × String) :=
  List.insertionSort (fun a b => strLe a.1 b.1 = true) l

mutual
/-- The canonical serialization `json.dumps(data, sort_keys=True)`. -/
def jserialize : Json → String
  | .null => "null"
  | .bool b => if b then "true" else "false"
  | .num s => s
  | .str s => "\"" ++ jescape s ++ "\""
  | .arr xs => "[" ++ sepJoin (jserializeArr xs) ++ "]"
  | .obj kvs =>
      "\x7b" ++
        sepJoin ((sortStrPairs (jserializeObj kvs)).map fun kv =>
          "\"" ++ jescape kv.1 ++ "\": " ++ kv.2) ++
      "\x7d"

/-- Serialize every element of a JSON array, in order. -/
def jserializeArr : List Json → List String
  | [] => []
  | x :: xs => jserialize x :: jserializeArr xs

/-- Render the value of every object entry, keeping the key for sorting. -/
def jserializeObj : List (String × Json) → List (String × String)
  | [] => []
  | (k, v) :: kvs => (k, jserialize v) :: jserializeObj kvs
end

/-- `hash_data` of `monitor.py`: the SHA-256 digest of the canonical
serialization, modelled by the serialization itself (digest equality is
serialization equality under the collision-freeness assumption). -/
def hash_data (data : Json) : String :=
  jserialize data

example : hash_data (.obj [("a", .num "1"), ("b", .num "2")]) =
    "\x7b\"a\": 1, \"b\": 2\x7d" := by decide

example : hash_data (.obj [("b", .num "2"), ("a", .num "1")]) =
    "\x7b\"a\": 1, \"b\": 2\x7d" := by decide

/-! ## Change Detector (`detect_changes`, monitor.py lines 175-259) -/

/-- Summary-level comparison: one generic event per endpoint whose hash of
the stored summary payload changed (lines 184-189). -/
def summaryChanges (old_data new_data : Json) : List String :=
  ["grades", "attendance", "transcript"].flatMap fun data_type =>
    let old_summary := (old_data.getD "summary" (.obj [])).getD data_type (.obj [])
    let new_summary := (new_data.getD "summary" (.obj [])).getD data_type (.obj [])
    if hash_data old_summary ≠ hash_data new_summary then
      ["📊 " ++ data_type.capitalize ++ " summary updated"]
    else []

/-- Events for a single course of the detailed-grades map (lines 195-214):
the whole-record hash gates the grade-entry length check, the midterm length
check and the midterm hash check, in source order. -/
def gradeCourseEvents (old_course_data course_data : Json) (course_code : String) :
    List String :=
  if hash_data old_course_data ≠ hash_data course_data then
    let old_detailed := old_course_data.getD "detailed_grades" (.arr [])
    let new_detailed := course_data.getD "detailed_grades" (.arr [])
    (if pyLen new_detailed > pyLen old_detailed then
      ["📝 " ++ toString (pyLen new_detailed - pyLen old_detailed) ++
        " new grade entries for " ++ course_code]
    else []) ++
    (let old_midterms := old_course_data.getD "midterm_results" (.arr [])
     let new_midterms := course_data.getD "midterm_results" (.arr [])
     (if pyLen new_midterms > pyLen old_midterms then
       ["🎯 New midterm results for " ++ course_code]
     else []) ++
     (if hash_data old_midterms ≠ hash_data new_midterms then
       ["📈 Grade changes detected for " ++ course_code]
     else []))
  else []

/-- Detailed-grades comparison (lines 191-214): iterate the current map in
insertion order, defaulting a missing baseline record to an empty dict. -/
def gradeChanges (old_data new_data : Json) : List String :=
  let old_grades := old_data.getD "detailed_grades" (.obj [])
  (new_data.getD "detailed_grades" (.obj [])).objItems.flatMap fun kv =>
    gradeCourseEvents (old_grades.getD kv.1 (.obj [])) kv.2 kv.1

/-- Events for a single course of the detailed-attendance map
(lines 220-235): attendance-entry length check, then warning length check. -/
def attendanceCourseEvents (old_course_data course_data : Json) (course_code : String) :
    List String :=
  if hash_data old_course_data ≠ hash_data course_data then
    let old_detailed := old_course_data.getD "detailed_attendance" (.arr [])
    let new_detailed := course_data.getD "detailed_attendance" (.arr [])
    (if pyLen new_detailed > pyLen old_detailed then
      ["📅 " ++ toString (pyLen new_detailed - pyLen old_detailed) ++
        " new attendance entries for " ++ course_code]
    else []) ++
    (let old_warnings := old_course_data.getD "warning_courses" (.arr [])
     let new_warnings := course_data.getD "warning_courses" (.arr [])
     if pyLen new_warnings > pyLen old_warnings then
       ["⚠️ New attendance warnings for " ++ course_code]
     else [])
  else []

/-- Detailed-attendance comparison (lines 216-235). -/
def attendanceChanges (old_data new_data : Json) : List String :=
  let old_attendance := old_data.getD "detailed_attendance" (.obj [])
  (new_data.getD "detailed_attendance" (.obj [])).objItems.flatMap fun kv =>
    attendanceCourseEvents (old_attendance.getD kv.1 (.obj [])) kv.2 kv.1

/-- Python `str(x)` for the values interpolated into the GPA event (floats
and strings keep their text, an absent value prints as `None`). -/
def pyStr : Json → String
  | .null => "None"
  | .bool b => if b then "True" else "False"
  | .num s => s
  | .str s => s
  | j => jserialize j

/-- Python `str` of a value that may be `None`. -/
def pyStrOpt : Option Json → String
  | none => "None"
  | some j => pyStr j

/-- Events for a single year of the detailed-transcripts map
(lines 241-257): GPA value check, then transcript course-count check. -/
def transcriptYearEvents (old_year_data year_data : Json) (year : String) :
    List String :=
  if hash_data old_year_data ≠ hash_data year_data then
    let old_gpa := old_year_data.getOpt "gpa"
    let new_gpa := year_data.getOpt "gpa"
    (if optJsonEq old_gpa new_gpa = false then
      ["🎓 GPA updated for " ++ year ++ ": " ++ pyStrOpt old_gpa ++ " → " ++
        pyStrOpt new_gpa]
    else []) ++
    (let old_courses := pyLen (old_year_data.getD "transcript_data" (.arr []))
     let new_courses := pyLen (year_data.getD "transcript_data" (.arr []))
     if new_courses > old_courses then
       ["📚 " ++ toString (new_courses - old_courses) ++ " new courses in " ++
         year ++ " transcript"]
     else [])
  else []

/-- Detailed-transcripts comparison (lines 237-257). -/
def transcriptChanges (old_data new_data : Json) : List String :=
  let old_transcripts := old_data.getD "detailed_transcripts" (.obj [])
  (new_data.getD "detailed_transcripts" (.obj [])).objItems.flatMap fun kv =>
    transcriptYearEvents (old_transcripts.getD kv.1 (.obj [])) kv.2 kv.1

/-- `detect_changes` of `monitor.py` (lines 175-259): an absent baseline
produces the single first-run event, otherwise the four comparison sections
run in source order and their events are concatenated. -/
def detect_changes (old_data : Option Json) (new_data : Json) : List String :=
  match old_data with
  | none => ["🆕 Initial data fetch - monitoring started!"]
  | some od =>
      summaryChanges od new_data ++ gradeChanges od new_data ++
        attendanceChanges od new_data ++ transcriptChanges od new_data

/-! ## API Client (`make_api_request`, monitor.py lines 28-56) -/

/-- What one HTTP attempt can produce: a transport-level exception (network
error or unparsable body) or a parsed response with its status code. -/
inductive ApiOutcome where
  | exn : ApiOutcome
  | resp (status : Nat) (body : Json) : ApiOutcome

/-- The success test of one attempt (lines 43-46): HTTP 200, an envelope
whose `status` field equals `"success"`, and then the `data` field with an
empty-dict default.  Every other outcome is a retryable failure. -/
def attemptSuccess : ApiOutcome → Option Json
  | .exn => none
  | .resp status body =>
      if status = 200 then
        match body with
        | .obj kvs =>
            match lookupKV kvs "status" with
            | some (.str s) =>
                if s = "success" then some ((lookupKV kvs "data").getD (.obj []))
                else none
            | _ => none
        | _ => none
      else none

/-- Observable result of `make_api_request`: the returned value, how many
attempts were made, and the sleep durations in order. -/
structure ApiRun where
  result : Option Json
  attemptsMade : Nat
  sleeps : List Nat

/-- `make_api_request` of `monitor.py`: the loop `for attempt in range(3)`,
unrolled at its constant bound.  A successful attempt returns at once; a
failed attempt is followed by `time.sleep(2)` except after the last one
(`if attempt < 2`), and exhaustion returns `None` (lines 34-56). -/
def make_api_request (handler : Nat → ApiOutcome) : ApiRun :=
  match attemptSuccess (handler 0) with
  | some d => ⟨some d, 1, []⟩
  | none =>
      match attemptSuccess (handler 1) with
      | some d => ⟨some d, 2, [2]⟩
      | none =>
          match attemptSuccess (handler 2) with
          | some d => ⟨some d, 3, [2, 2]⟩
          | none => ⟨none, 3, [2, 2]⟩

example :
    make_api_request (fun i => if i < 2 then .exn
      else .resp 200 (.obj [("status", .str "success"), ("data", .num "7")])) =
    ⟨some (.num "7"), 3, [2, 2]⟩ := rfl

example : make_api_request (fun _ => .exn) = ⟨none, 3, [2, 2]⟩ := rfl

/-! ## Snapshot Assembler (monitor.py lines 58-150 and 448-485) -/

/-- One `make_api_request` call as issued by the assembler: the endpoint and
the caller-supplied parameters (credentials are merged in by the client and
carry no information for the claims). -/
structure ApiReq where
  endpoint : String
  params : List (String × Json)

/-- The network as seen above the retry loop: for an endpoint and parameter
list, the value `make_api_request` returns (`none` after exhaustion). -/
def ApiHandler : Type := String → List (String × Json) → Option Json

/-- A `None` stored into a dict becomes JSON null under serialization. -/
def optJson : Option Json → Json
  | none => .null
  | some j => j

/-- `fetch_summary_data` (lines 58-70): one client call per fixed endpoint,
stored into the summary dict in that order, plus the request log. -/
def fetch_summary_data (api : ApiHandler) : Json × List ApiReq :=
  (Json.obj [("grades", optJson (api "grades" [])),
             ("attendance", optJson (api "attendance" [])),
             ("transcript", optJson (api "transcript" []))],
   [⟨"grades", []⟩, ⟨"attendance", []⟩, ⟨"transcript", []⟩])

/-- Membership of a key in a JSON object, Python `key in d`. -/
def hasKey (j : Json) (key : String) : Bool :=
  (j.getOpt key).isSome

/-- The elements of a JSON array (iteration target; the discovery loops only
ever iterate lists in well-formed payloads). -/
def asArr : Json → List Json
  | .arr xs => xs
  | _ => []

/-- Add a value to the accumulating course set unless already present:
`courses.add(...)` followed by `list(courses)`, modelled with first-insertion
order (set semantics, no duplicates; no ordering is guaranteed by the
source either). -/
def insertUnique (acc : List Json) (c : Json) : List Json :=
  if acc.any (fun x => jsonEq x c) then acc else acc ++ [c]

/-- The year allow-list of the discovery step (line 91). -/
def allowedYears : List String := ["2022", "2023", "2024", "2025"]

/-- Python `pat in s` substring test on strings. -/
def strContainsB (s pat : String) : Bool :=
  s.data.tails.any fun t => pat.data.isPrefixOf t

/-- `extract_courses_and_years` (lines 72-97): course codes are collected
from `available_courses` of the grades and attendance summaries with set
semantics, year descriptors from `available_years` of the transcript summary
filtered by the year allow-list.  Year entries keep `(text, value)`; a
malformed entry (not a dict, or a non-string `text`) is skipped. -/
def extract_courses_and_years (summary : Json) : List Json × List (String × Json) :=
  let courses :=
    ["grades", "attendance"].foldl (fun acc data_type =>
      let sub := optJson (summary.getOpt data_type)
      if pyTruthy sub && hasKey sub "available_courses" then
        (asArr (sub.getD "available_courses" .null)).foldl (fun acc2 course =>
          match course with
          | .obj kvs =>
              match lookupKV kvs "code" with
              | some code => insertUnique acc2 code
              | none => acc2
          | _ => acc2) acc
      else acc) []
  let years :=
    if pyTruthy (optJson (summary.getOpt "transcript")) &&
        hasKey (optJson (summary.getOpt "transcript")) "available_years" then
      (asArr ((optJson (summary.getOpt "transcript")).getD "available_years" .null)).foldl
        (fun acc year_info =>
          match year_info with
          | .obj kvs =>
              match (lookupKV kvs "text").getD (.str "") with
              | .str year_text =>
                  if allowedYears.any (fun y => strContainsB year_text y) then
                    acc ++ [(year_text, (lookupKV kvs "value").getD (.str ""))]
                  else acc
              | _ => acc
          | _ => acc) []
    else []
  (courses, years)

/-- The dict key under which a detailed record is stored, Python uses the
course code value itself as the key (always a string in portal data; any
other value is represented by its canonical text). -/
def keyOf : Json → String
  | .str s => s
  | j => jserialize j

/-- `fetch_detailed_data` (lines 99-150): refetch the summary, then one
parameterized grades and attendance request per course and one transcript
request per year, keeping only truthy payloads, indexed by course code and
year text.  Returns the assembled snapshot and the request log. -/
def fetch_detailed_data (api : ApiHandler) (courses : List Json)
    (years : List (String × Json)) : Json × List ApiReq :=
  let summaryLog := fetch_summary_data api
  let gradeEntries := courses.filterMap fun cc =>
    match api "grades" [("course_code", cc)] with
    | some v => if pyTruthy v then some (keyOf cc, v) else none
    | none => none
  let attEntries := courses.filterMap fun cc =>
    match api "attendance" [("course_code", cc)] with
    | some v => if pyTruthy v then some (keyOf cc, v) else none
    | none => none
  let transEntries := years.filterMap fun y =>
    match api "transcript" [("year_value", y.2)] with
    | some v => if pyTruthy v then some (y.1, v) else none
    | none => none
  (Json.obj [("detailed_grades", .obj gradeEntries),
             ("detailed_attendance", .obj attEntries),
             ("detailed_transcripts", .obj transEntries),
             ("summary", summaryLog.1)],
   summaryLog.2 ++ courses.map (fun cc => ⟨"grades", [("course_code", cc)]⟩) ++
     courses.map (fun cc => ⟨"attendance", [("course_code", cc)]⟩) ++
     years.map (fun y => ⟨"transcript", [("year_value", y.2)]⟩))

/-- Observable outcome of one monitoring run: every `make_api_request` that
was issued, the snapshot passed to `save_current_data` (`none` when the run
aborted before saving), and the detected changes. -/
structure RunResult where
  log : List ApiReq
  saved : Option Json
  changes : List String

/-- `run_monitoring` (lines 448-485): fetch the summary, discover courses
and years, abort when no course was found (nothing fetched in detail,
nothing saved), otherwise assemble the current snapshot, diff it against the
baseline and save it. -/
def run_monitoring (api : ApiHandler) (previous : Option Json) : RunResult :=
  let summaryLog := fetch_summary_data api
  let discovered := extract_courses_and_years summaryLog.1
  if discovered.1.isEmpty then ⟨summaryLog.2, none, []⟩
  else
    let detailed := fetch_detailed_data api discovered.1 discovered.2
    ⟨summaryLog.2 ++ detailed.2, some detailed.1, detect_changes previous detailed.1⟩

/-! ## Association-list and section lemmas -/

/-- The keys of a Python dict are pairwise distinct. -/
def nodupKeys (l : List (String × Json)) : Prop :=
  (l.map Prod.fst).Nodup

instance (l : List (String × Json)) : Decidable (nodupKeys l) := by
  unfold nodupKeys; infer_instance

theorem lookupKV_eq_some_of_mem (l : List (String × Json)) (k : String) (v : Json)
    (hnd : nodupKeys l) (hmem : (k, v) ∈ l) : lookupKV l k = some v := by
  induction l with
  | nil => cases hmem
  | cons kv t ih =>
      obtain ⟨k0, v0⟩ := kv
      rw [nodupKeys, List.map_cons, List.nodup_cons] at hnd
      rcases List.mem_cons.mp hmem with h | h
      · obtain ⟨rfl, rfl⟩ := Prod.mk.injEq .. ▸ h
        simp [lookupKV]
      · have hne : k0 ≠ k := fun he =>
          hnd.1 (he ▸ List.mem_map.mpr ⟨(k, v), h, rfl⟩)
        simpa [lookupKV, hne] using ih hnd.2 h

theorem lookupKV_eq_none_of_not_mem (l : List (String × Json)) (k : String)
    (h : k ∉ l.map Prod.fst) : lookupKV l k = none := by
  induction l with
  | nil => rfl
  | cons kv t ih =>
      obtain ⟨k0, v0⟩ := kv
      rw [List.map_cons] at h
      have hne : k0 ≠ k := fun he => h (he ▸ List.mem_cons_self _ _)
      simpa [lookupKV, hne] using ih (fun hm => h (List.mem_cons_of_mem _ hm))

theorem lookupKV_append (l l' : List (String × Json)) (k : String) :
    lookupKV (l ++ l') k =
      match lookupKV l k with
      | some v => some v
      | none => lookupKV l' k := by
  induction l with
  | nil => simp [lookupKV]
  | cons kv t ih =>
      obtain ⟨k0, v0⟩ := kv
      by_cases h : k0 = k <;> simp [lookupKV, h, ih]

/-- A per-record comparison fed the same record twice reports nothing,
because the gating hash test compares a digest with itself. -/
theorem gradeCourseEvents_self (v : Json) (k : String) :
    gradeCourseEvents v v k = [] := by
  simp [gradeCourseEvents]

theorem attendanceCourseEvents_self (v : Json) (k : String) :
    attendanceCourseEvents v v k = [] := by
  simp [attendanceCourseEvents]

theorem transcriptYearEvents_self (v : Json) (k : String) :
    transcriptYearEvents v v k = [] := by
  simp [transcriptYearEvents]

/-- Iterating a duplicate-free map against itself produces no events when
the per-record comparison is reflexive-empty. -/
theorem flatMap_lookup_self (m : Json) (f : Json → Json → String → List String)
    (hf : ∀ v k, f v v k = []) (hnd : nodupKeys m.objItems) :
    m.objItems.flatMap (fun kv => f (m.getD kv.1 (.obj [])) kv.2 kv.1) = [] := by
  cases m with
  | obj kvs =>
      rw [List.flatMap_eq_nil_iff]
      intro kv hkv
      obtain ⟨k, v⟩ := kv
      have hl : lookupKV kvs k = some v :=
        lookupKV_eq_some_of_mem kvs k v hnd hkv
      simp only [Json.getD, hl, Option.getD_some]
      exact hf v k
  | null => rfl
  | bool b => rfl
  | num s => rfl
  | str s => rfl
  | arr xs => rfl

/-! ## Claims -/

/-- C1: when the baseline is absent, `detect_changes` returns exactly the
single first-run initialization event, whatever the current snapshot holds,
and no comparison of its fields takes place. -/
theorem detect_changes_no_baseline (new_data : Json) :
    detect_changes none new_data = ["🆕 Initial data fetch - monitoring started!"] :=
  rfl

/-- C2: comparing any snapshot against a structurally identical baseline
produces no change events (snapshot maps are Python dicts, whose keys never
repeat). -/
theorem detect_changes_self (S : Json)
    (hg : nodupKeys (S.getD "detailed_grades" (.obj [])).objItems)
    (ha : nodupKeys (S.getD "detailed_attendance" (.obj [])).objItems)
    (ht : nodupKeys (S.getD "detailed_transcripts" (.obj [])).objItems) :
    detect_changes (some S) S = [] := by
  show summaryChanges S S ++ gradeChanges S S ++ attendanceChanges S S ++
      transcriptChanges S S = []
  rw [summaryChanges, gradeChanges, attendanceChanges, transcriptChanges]
  rw [flatMap_lookup_self _ _ gradeCourseEvents_self hg,
    flatMap_lookup_self _ _ attendanceCourseEvents_self ha,
    flatMap_lookup_self _ _ transcriptYearEvents_self ht]
  simp

/-- C2 witness at a concrete snapshot. -/
theorem detect_changes_self_witness :
    detect_changes (some (Json.obj [("summary", .obj []),
      ("detailed_grades", .obj [("CS101", .obj [])]),
      ("detailed_attendance", .obj []), ("detailed_transcripts", .obj [])]))
      (Json.obj [("summary", .obj []),
      ("detailed_grades", .obj [("CS101", .obj [])]),
      ("detailed_attendance", .obj []), ("detailed_transcripts", .obj [])]) = [] :=
  detect_changes_self _ (by decide) (by decide) (by decide)

theorem make_api_request_succ0 (handler : Nat → ApiOutcome) (d : Json)
    (h0 : attemptSuccess (handler 0) = some d) :
    make_api_request handler = ⟨some d, 1, []⟩ := by
  simp [make_api_request, h0]

theorem make_api_request_succ1 (handler : Nat → ApiOutcome) (d : Json)
    (h0 : attemptSuccess (handler 0) = none)
    (h1 : attemptSuccess (handler 1) = some d) :
    make_api_request handler = ⟨some d, 2, [2]⟩ := by
  simp [make_api_request, h0, h1]

theorem make_api_request_succ2 (handler : Nat → ApiOutcome) (d : Json)
    (h0 : attemptSuccess (handler 0) = none)
    (h1 : attemptSuccess (handler 1) = none)
    (h2 : attemptSuccess (handler 2) = some d) :
    make_api_request handler = ⟨some d, 3, [2, 2]⟩ := by
  simp [make_api_request, h0, h1, h2]

theorem make_api_request_exhausted (handler : Nat → ApiOutcome)
    (h0 : attemptSuccess (handler 0) = none)
    (h1 : attemptSuccess (handler 1) = none)
    (h2 : attemptSuccess (handler 2) = none) :
    make_api_request handler = ⟨none, 3, [2, 2]⟩ := by
  simp [make_api_request, h0, h1, h2]

/-- C3: the client makes at most 3 attempts; the first attempt that passes
the 200/success test returns the data payload at once, having slept 2 units
after each earlier failed attempt and never after the returning one; three
failures return `None` with only the two inter-attempt sleeps. -/
theorem make_api_request_retry (handler : Nat → ApiOutcome) :
    (make_api_request handler).attemptsMade ≤ 3 ∧
    (∀ i d, i < 3 → attemptSuccess (handler i) = some d →
      (∀ j, j < i → attemptSuccess (handler j) = none) →
      make_api_request handler = ⟨some d, i + 1, List.replicate i 2⟩) ∧
    ((∀ j, j < 3 → attemptSuccess (handler j) = none) →
      make_api_request handler = ⟨none, 3, [2, 2]⟩) := by
  refine ⟨?_, ?_, ?_⟩
  · rcases h0 : attemptSuccess (handler 0) with _ | d0
    · rcases h1 : attemptSuccess (handler 1) with _ | d1
      · rcases h2 : attemptSuccess (handler 2) with _ | d2
        · rw [make_api_request_exhausted handler h0 h1 h2]
        · rw [make_api_request_succ2 handler d2 h0 h1 h2]
      · rw [make_api_request_succ1 handler d1 h0 h1]; exact (by decide : (2 : Nat) ≤ 3)
    · rw [make_api_request_succ0 handler d0 h0]; exact (by decide : (1 : Nat) ≤ 3)
  · intro i d hi hs hprev
    interval_cases i
    · simpa using make_api_request_succ0 handler d hs
    · simpa using make_api_request_succ1 handler d (hprev 0 (by omega)) hs
    · simpa [List.replicate] using
        make_api_request_succ2 handler d (hprev 0 (by omega)) (hprev 1 (by omega)) hs
  · intro hall
    exact make_api_request_exhausted handler (hall 0 (by omega)) (hall 1 (by omega))
      (hall 2 (by omega))

/-- The canonical fails-twice-then-succeeds handler of the spec test. -/
def handlerFailTwice : Nat → ApiOutcome := fun i =>
  if i < 2 then .exn
  else .resp 200 (.obj [("status", .str "success"), ("data", .num "7")])

/-- C3 witness: two failures then a success yield the successful payload on
the third attempt, with exactly the two inter-attempt sleeps. -/
theorem make_api_request_retry_witness :
    make_api_request handlerFailTwice = ⟨some (.num "7"), 2 + 1, List.replicate 2 2⟩ :=
  (make_api_request_retry handlerFailTwice).2.1 2 (.num "7") (by omega) rfl
    (fun j hj => by interval_cases j <;> rfl)

/-! ## Key-order independence of the canonical serialization -/

theorem charListLe_total : ∀ a b : List Char,
    charListLe a b = true ∨ charListLe b a = true
  | [], _ => Or.inl rfl
  | _ :: _, [] => Or.inr rfl
  | a :: as, b :: bs => by
      rcases lt_trichotomy a b with h | h | h
      · left; simp [charListLe, h]
      · subst h
        rcases charListLe_total as bs with ih | ih
        · left; simpa [charListLe] using ih
        · right; simpa [charListLe] using ih
      · right; simp [charListLe, h]

theorem charListLe_trans : ∀ a b c : List Char,
    charListLe a b = true → charListLe b c = true → charListLe a c = true
  | [], _, _ => fun _ _ => rfl
  | _ :: _, [], _ => fun h _ => by simp [charListLe] at h
  | _ :: _, _ :: _, [] => fun _ h => by simp [charListLe] at h
  | a :: as, b :: bs, c :: cs => fun h1 h2 => by
      by_cases hab : a < b
      · by_cases hbc : b < c
        · simp [charListLe, lt_trans hab hbc]
        · by_cases hcb : c < b
          · simp [charListLe, hbc, hcb] at h2
          · have : b = c := le_antisymm (not_lt.mp hcb) (not_lt.mp hbc)
            subst this
            simp [charListLe, hab]
      · by_cases hba : b < a
        · simp [charListLe, hab, hba] at h1
        · have : a = b := le_antisymm (not_lt.mp hba) (not_lt.mp hab)
          subst this
          simp only [charListLe, if_neg (lt_irrefl a)] at h1
          by_cases hac : a < c
          · simp [charListLe, hac]
          · by_cases hca : c < a
            · simp [charListLe, hac, hca] at h2
            · simp only [charListLe, if_neg hac, if_neg hca] at h2 ⊢
              exact charListLe_trans as bs cs h1 h2

theorem charListLe_antisymm : ∀ a b : List Char,
    charListLe a b = true → charListLe b a = true → a = b
  | [], [] => fun _ _ => rfl
  | [], _ :: _ => fun _ h => by simp [charListLe] at h
  | _ :: _, [] => fun h _ => by simp [charListLe] at h
  | a :: as, b :: bs => fun h1 h2 => by
      by_cases hab : a < b
      · simp [charListLe, hab, lt_asymm hab] at h2
      · by_cases hba : b < a
        · simp [charListLe, hab, hba] at h1
        · have hx : a = b := le_antisymm (not_lt.mp hba) (not_lt.mp hab)
          subst hx
          simp only [charListLe, if_neg (lt_irrefl a)] at h1 h2
          exact congrArg (a :: ·) (charListLe_antisymm as bs h1 h2)

theorem strLe_total (a b : String) : strLe a b = true ∨ strLe b a = true :=
  charListLe_total a.data b.data

theorem strLe_trans (a b c : String) :
    strLe a b = true → strLe b c = true → strLe a c = true :=
  charListLe_trans a.data b.data c.data

theorem strLe_antisymm (a b : String) :
    strLe a b = true → strLe b a = true → a = b := fun h1 h2 => by
  cases a; cases b
  exact congrArg String.mk (charListLe_antisymm _ _ h1 h2)

theorem jserializeObj_eq_map (l : List (String × Json)) :
    jserializeObj l = l.map fun kv => (kv.1, jserialize kv.2) := by
  induction l with
  | nil => rfl
  | cons kv t ih => obtain ⟨k, v⟩ := kv; simp [jserializeObj, ih]

/-- Sorting rendered entries by key is insensitive to the original entry
order as long as the keys are duplicate-free. -/
theorem sortStrPairs_eq_of_perm (l1 l2 : List (String × String))
    (hp : List.Perm l1 l2) (hnd : (l1.map Prod.fst).Nodup) :
    sortStrPairs l1 = sortStrPairs l2 := by
  haveI hTot : IsTotal (String × String) (fun a b => strLe a.1 b.1 = true) :=
    ⟨fun a b => strLe_total a.1 b.1⟩
  haveI hTr : IsTrans (String × String) (fun a b => strLe a.1 b.1 = true) :=
    ⟨fun a b c => strLe_trans a.1 b.1 c.1⟩
  have hperm : List.Perm (sortStrPairs l1) (sortStrPairs l2) :=
    ((List.perm_insertionSort _ l1).trans hp).trans
      (List.perm_insertionSort _ l2).symm
  have hs1 : List.Sorted (fun a b : String × String => strLe a.1 b.1 = true)
      (sortStrPairs l1) := List.sorted_insertionSort _ l1
  have hs2 : List.Sorted (fun a b : String × String => strLe a.1 b.1 = true)
      (sortStrPairs l2) := List.sorted_insertionSort _ l2
  have hnd1 : ((sortStrPairs l1).map Prod.fst).Nodup :=
    (((List.perm_insertionSort _ l1).map Prod.fst).nodup_iff).mpr hnd
  have hnd2 : ((sortStrPairs l2).map Prod.fst).Nodup :=
    (((List.perm_insertionSort _ l2).map Prod.fst).nodup_iff).mpr
      ((hp.map Prod.fst).nodup_iff.mp hnd)
  have hne1 : List.Pairwise (fun a b : String × String => a.1 ≠ b.1)
      (sortStrPairs l1) := List.pairwise_map.mp hnd1
  have hne2 : List.Pairwise (fun a b : String × String => a.1 ≠ b.1)
      (sortStrPairs l2) := List.pairwise_map.mp hnd2
  haveI : IsAntisymm (String × String)
      (fun a b : String × String => strLe a.1 b.1 = true ∧ a.1 ≠ b.1) :=
    ⟨fun a b h1 h2 => (h1.2 (strLe_antisymm a.1 b.1 h1.1 h2.1)).elim⟩
  exact List.eq_of_perm_of_sorted hperm (hs1.and hne1) (hs2.and hne2)

/-- C4: the content hash ignores object key order (equal digests for
key-permuted duplicate-free objects, in particular on the two-key example)
but respects list order (the two-element example lists hash differently). -/
theorem hash_data_key_order :
    (∀ kvs1 kvs2 : List (String × Json), List.Perm kvs1 kvs2 → nodupKeys kvs1 →
      hash_data (.obj kvs1) = hash_data (.obj kvs2)) ∧
    hash_data (.obj [("a", .num "1"), ("b", .num "2")]) =
      hash_data (.obj [("b", .num "2"), ("a", .num "1")]) ∧
    hash_data (.arr [.num "1", .num "2"]) ≠ hash_data (.arr [.num "2", .num "1"]) := by
  refine ⟨?_, by decide, by decide⟩
  intro kvs1 kvs2 hp hnd
  have hsort : sortStrPairs (jserializeObj kvs1) = sortStrPairs (jserializeObj kvs2) := by
    apply sortStrPairs_eq_of_perm
    · rw [jserializeObj_eq_map, jserializeObj_eq_map]
      exact hp.map _
    · rw [jserializeObj_eq_map, List.map_map]
      exact hnd
  show jserialize (.obj kvs1) = jserialize (.obj kvs2)
  rw [jserialize, jserialize, hsort]

/-- C4 witness: key-order independence at a concrete two-entry object. -/
theorem hash_data_key_order_witness :
    hash_data (.obj [("x", .null), ("y", .bool true)]) =
      hash_data (.obj [("y", .bool true), ("x", .null)]) :=
  hash_data_key_order.1 _ _ (List.Perm.swap _ _ _) (by decide)

/-! ## One-record-changed snapshots -/

/-- Iterating a duplicate-free map against the same map with exactly one
record replaced reports exactly the events of the replaced record. -/
theorem flatMap_lookup_replace (g1 g2 : List (String × Json)) (k0 : String)
    (oldRec newRec : Json) (f : Json → Json → String → List String)
    (hf : ∀ v k, f v v k = [])
    (hnd : nodupKeys (g1 ++ (k0, newRec) :: g2)) :
    (g1 ++ (k0, newRec) :: g2).flatMap
      (fun kv => f ((lookupKV (g1 ++ (k0, oldRec) :: g2) kv.1).getD (.obj [])) kv.2 kv.1) =
      f oldRec newRec k0 := by
  rw [nodupKeys, List.map_append, List.map_cons, List.nodup_append] at hnd
  obtain ⟨hnd1, hnd2, hdisj⟩ := hnd
  rw [List.nodup_cons] at hnd2
  have hk0g1 : k0 ∉ g1.map Prod.fst := fun h => hdisj h (List.mem_cons_self _ _)
  have hk0g2 : k0 ∉ g2.map Prod.fst := hnd2.1
  rw [List.flatMap_append, List.flatMap_cons]
  have hg1 : g1.flatMap
      (fun kv => f ((lookupKV (g1 ++ (k0, oldRec) :: g2) kv.1).getD (.obj [])) kv.2 kv.1) = [] := by
    rw [List.flatMap_eq_nil_iff]
    intro kv hkv
    obtain ⟨k, v⟩ := kv
    have hl : lookupKV g1 k = some v := lookupKV_eq_some_of_mem g1 k v hnd1 hkv
    rw [lookupKV_append, hl]
    exact hf v k
  have hg2 : g2.flatMap
      (fun kv => f ((lookupKV (g1 ++ (k0, oldRec) :: g2) kv.1).getD (.obj [])) kv.2 kv.1) = [] := by
    rw [List.flatMap_eq_nil_iff]
    intro kv hkv
    obtain ⟨k, v⟩ := kv
    have hkmem : k ∈ g2.map Prod.fst := List.mem_map.mpr ⟨(k, v), hkv, rfl⟩
    have hkg1 : lookupKV g1 k = none :=
      lookupKV_eq_none_of_not_mem g1 k (fun h => hdisj h (List.mem_cons_of_mem _ hkmem))
    have hkne : k0 ≠ k := fun he => hk0g2 (he ▸ hkmem)
    have hl : lookupKV g2 k = some v := lookupKV_eq_some_of_mem g2 k v hnd2.2 hkv
    rw [lookupKV_append, hkg1]
    simp only [lookupKV, if_neg hkne, hl]
    exact hf v k
  have hmid : lookupKV (g1 ++ (k0, oldRec) :: g2) k0 = some oldRec := by
    rw [lookupKV_append, lookupKV_eq_none_of_not_mem g1 k0 hk0g1]
    simp [lookupKV]
  rw [hg1, hg2, hmid]
  simp

/-- The snapshot dict assembled by `fetch_detailed_data` (lines 101-110). -/
def mkSnap (summary gradesMap attendance transcripts : Json) : Json :=
  Json.obj [("detailed_grades", gradesMap), ("detailed_attendance", attendance),
            ("detailed_transcripts", transcripts), ("summary", summary)]

theorem mkSnap_getD_grades (s g a t : Json) :
    (mkSnap s g a t).getD "detailed_grades" (.obj []) = g := rfl

theorem mkSnap_getD_attendance (s g a t : Json) :
    (mkSnap s g a t).getD "detailed_attendance" (.obj []) = a := rfl

theorem mkSnap_getD_transcripts (s g a t : Json) :
    (mkSnap s g a t).getD "detailed_transcripts" (.obj []) = t := rfl

theorem mkSnap_getD_summary (s g a t : Json) :
    (mkSnap s g a t).getD "summary" (.obj []) = s := rfl

theorem summaryChanges_same (od nd : Json)
    (h : od.getD "summary" (.obj []) = nd.getD "summary" (.obj [])) :
    summaryChanges od nd = [] := by
  simp [summaryChanges, h]

theorem gradeChanges_same (od nd : Json)
    (h : od.getD "detailed_grades" (.obj []) = nd.getD "detailed_grades" (.obj []))
    (hnd : nodupKeys (nd.getD "detailed_grades" (.obj [])).objItems) :
    gradeChanges od nd = [] := by
  rw [gradeChanges, h]
  exact flatMap_lookup_self _ _ gradeCourseEvents_self hnd

theorem attendanceChanges_same (od nd : Json)
    (h : od.getD "detailed_attendance" (.obj []) = nd.getD "detailed_attendance" (.obj []))
    (hnd : nodupKeys (nd.getD "detailed_attendance" (.obj [])).objItems) :
    attendanceChanges od nd = [] := by
  rw [attendanceChanges, h]
  exact flatMap_lookup_self _ _ attendanceCourseEvents_self hnd

theorem transcriptChanges_same (od nd : Json)
    (h : od.getD "detailed_transcripts" (.obj []) = nd.getD "detailed_transcripts" (.obj []))
    (hnd : nodupKeys (nd.getD "detailed_transcripts" (.obj [])).objItems) :
    transcriptChanges od nd = [] := by
  rw [transcriptChanges, h]
  exact flatMap_lookup_self _ _ transcriptYearEvents_self hnd

theorem gradeChanges_replace (od nd : Json) (g1 g2 : List (String × Json))
    (k0 : String) (oldRec newRec : Json)
    (ho : od.getD "detailed_grades" (.obj []) = .obj (g1 ++ (k0, oldRec) :: g2))
    (hn : nd.getD "detailed_grades" (.obj []) = .obj (g1 ++ (k0, newRec) :: g2))
    (hnd : nodupKeys (g1 ++ (k0, newRec) :: g2)) :
    gradeChanges od nd = gradeCourseEvents oldRec newRec k0 := by
  rw [gradeChanges, ho, hn]
  exact flatMap_lookup_replace g1 g2 k0 oldRec newRec _ gradeCourseEvents_self hnd

theorem transcriptChanges_replace (od nd : Json) (g1 g2 : List (String × Json))
    (k0 : String) (oldRec newRec : Json)
    (ho : od.getD "detailed_transcripts" (.obj []) = .obj (g1 ++ (k0, oldRec) :: g2))
    (hn : nd.getD "detailed_transcripts" (.obj []) = .obj (g1 ++ (k0, newRec) :: g2))
    (hnd : nodupKeys (g1 ++ (k0, newRec) :: g2)) :
    transcriptChanges od nd = transcriptYearEvents oldRec newRec k0 := by
  rw [transcriptChanges, ho, hn]
  exact flatMap_lookup_replace g1 g2 k0 oldRec newRec _ transcriptYearEvents_self hnd

/-- The CS101 grade record before the update: three grade entries, one
midterm result. -/
def cs101Old : Json :=
  .obj [("detailed_grades", .arr [.str "g1", .str "g2", .str "g3"]),
        ("midterm_results", .arr [.str "m1"])]

/-- The CS101 grade record after the update: five grade entries, the same
midterm results. -/
def cs101New : Json :=
  .obj [("detailed_grades", .arr [.str "g1", .str "g2", .str "g3", .str "g4", .str "g5"]),
        ("midterm_results", .arr [.str "m1"])]

/-- C5: when the snapshots agree everywhere except that the CS101 grade
record grows from 3 to 5 grade entries with unchanged midterm results, the
detector emits exactly the single new-grade-entries event with delta 2 —
no midterm and no grade-changes event. -/
theorem detect_changes_cs101_growth (summary attendance transcripts : Json)
    (g1 g2 : List (String × Json))
    (hnd : nodupKeys (g1 ++ ("CS101", cs101New) :: g2))
    (ha : nodupKeys attendance.objItems)
    (ht : nodupKeys transcripts.objItems) :
    detect_changes
      (some (mkSnap summary (.obj (g1 ++ ("CS101", cs101Old) :: g2)) attendance transcripts))
      (mkSnap summary (.obj (g1 ++ ("CS101", cs101New) :: g2)) attendance transcripts) =
      ["📝 2 new grade entries for CS101"] := by
  show summaryChanges _ _ ++ gradeChanges _ _ ++ attendanceChanges _ _ ++
      transcriptChanges _ _ = _
  rw [summaryChanges_same _ _ (by rw [mkSnap_getD_summary, mkSnap_getD_summary]),
    gradeChanges_replace _ _ g1 g2 "CS101" cs101Old cs101New
      (mkSnap_getD_grades ..) (mkSnap_getD_grades ..) hnd,
    attendanceChanges_same _ _
      (by rw [mkSnap_getD_attendance, mkSnap_getD_attendance])
      (by rw [mkSnap_getD_attendance]; exact ha),
    transcriptChanges_same _ _
      (by rw [mkSnap_getD_transcripts, mkSnap_getD_transcripts])
      (by rw [mkSnap_getD_transcripts]; exact ht)]
  show [] ++ gradeCourseEvents cs101Old cs101New "CS101" ++ [] ++ [] = _
  have : gradeCourseEvents cs101Old cs101New "CS101" =
      ["📝 2 new grade entries for CS101"] := by decide
  rw [this]
  rfl

/-- C5 witness: the single-course instance with empty other sections. -/
theorem detect_changes_cs101_growth_witness :
    detect_changes
      (some (mkSnap (.obj []) (.obj [("CS101", cs101Old)]) (.obj []) (.obj [])))
      (mkSnap (.obj []) (.obj [("CS101", cs101New)]) (.obj []) (.obj [])) =
      ["📝 2 new grade entries for CS101"] :=
  detect_changes_cs101_growth (.obj []) (.obj []) (.obj []) [] [] (by decide)
    (by decide) (by decide)

/-! ## GPA change events -/

/-- Substring containment, for the requirement that the GPA event text
literally carries both values. -/
def ContainsStr (s pat : String) : Prop :=
  ∃ a b : String, s = a ++ pat ++ b

/-- Transcript record of year 2023/2024 with GPA 3.2. -/
def year2324Old : Json :=
  .obj [("gpa", .num "3.2"), ("transcript_data", .arr [])]

/-- Transcript record of year 2023/2024 with GPA 3.5, otherwise unchanged. -/
def year2324New : Json :=
  .obj [("gpa", .num "3.5"), ("transcript_data", .arr [])]

/-- C6: for every year of the current detailed transcripts whose record hash
differs from the baseline and whose GPA value differs, the detector emits a
GPA event whose text contains both the old and the new GPA rendering; and
when only one year record changes, with GPA 3.2 becoming 3.5 and nothing
else, the run emits exactly that one event. -/
theorem detect_changes_gpa_event :
    (∀ (old_data new_data : Json) (year : String) (ydata : Json),
      (year, ydata) ∈ (new_data.getD "detailed_transcripts" (.obj [])).objItems →
      hash_data ((old_data.getD "detailed_transcripts" (.obj [])).getD year (.obj [])) ≠
        hash_data ydata →
      optJsonEq
        (((old_data.getD "detailed_transcripts" (.obj [])).getD year (.obj [])).getOpt "gpa")
        (ydata.getOpt "gpa") = false →
      ∃ ev ∈ detect_changes (some old_data) new_data,
        ContainsStr ev (pyStrOpt
          (((old_data.getD "detailed_transcripts" (.obj [])).getD year (.obj [])).getOpt "gpa")) ∧
        ContainsStr ev (pyStrOpt (ydata.getOpt "gpa"))) ∧
    (∀ (summary grades attendance : Json) (t1 t2 : List (String × Json)),
      nodupKeys grades.objItems → nodupKeys attendance.objItems →
      nodupKeys (t1 ++ ("2023/2024", year2324New) :: t2) →
      detect_changes
        (some (mkSnap summary grades attendance
          (.obj (t1 ++ ("2023/2024", year2324Old) :: t2))))
        (mkSnap summary grades attendance
          (.obj (t1 ++ ("2023/2024", year2324New) :: t2))) =
        ["🎓 GPA updated for 2023/2024: 3.2 → 3.5"]) := by
  constructor
  · intro od nd year ydata hmem hne hgpa
    refine ⟨"🎓 GPA updated for " ++ year ++ ": " ++
      pyStrOpt (((od.getD "detailed_transcripts" (.obj [])).getD year (.obj [])).getOpt "gpa") ++
      " → " ++ pyStrOpt (ydata.getOpt "gpa"), ?_, ?_, ?_⟩
    · show _ ∈ summaryChanges od nd ++ gradeChanges od nd ++ attendanceChanges od nd ++
        transcriptChanges od nd
      apply List.mem_append_right
      rw [transcriptChanges]
      apply List.mem_flatMap.mpr
      refine ⟨(year, ydata), hmem, ?_⟩
      show _ ∈ transcriptYearEvents
        ((od.getD "detailed_transcripts" (.obj [])).getD year (.obj [])) ydata year
      simp only [transcriptYearEvents, if_pos hne, if_pos hgpa]
      exact List.mem_append_left _ (List.mem_singleton.mpr rfl)
    · exact ⟨"🎓 GPA updated for " ++ year ++ ": ",
        " → " ++ pyStrOpt (ydata.getOpt "gpa"), by rw [String.append_assoc]⟩
    · refine ⟨"🎓 GPA updated for " ++ year ++ ": " ++
        pyStrOpt (((od.getD "detailed_transcripts" (.obj [])).getD year (.obj [])).getOpt "gpa") ++
        " → ", "", ?_⟩
      rw [String.append_empty]
  · intro summary grades attendance t1 t2 hg ha hnd
    show summaryChanges _ _ ++ gradeChanges _ _ ++ attendanceChanges _ _ ++
        transcriptChanges _ _ = _
    rw [summaryChanges_same _ _ (by rw [mkSnap_getD_summary, mkSnap_getD_summary]),
      gradeChanges_same _ _ (by rw [mkSnap_getD_grades, mkSnap_getD_grades])
        (by rw [mkSnap_getD_grades]; exact hg),
      attendanceChanges_same _ _
        (by rw [mkSnap_getD_attendance, mkSnap_getD_attendance])
        (by rw [mkSnap_getD_attendance]; exact ha),
      transcriptChanges_replace _ _ t1 t2 "2023/2024" year2324Old year2324New
        (mkSnap_getD_transcripts ..) (mkSnap_getD_transcripts ..) hnd]
    have : transcriptYearEvents year2324Old year2324New "2023/2024" =
        ["🎓 GPA updated for 2023/2024: 3.2 → 3.5"] := by decide
    rw [this]
    rfl

/-- C6 witness: both parts at the snapshot pair whose only difference is the
2023/2024 GPA moving from 3.2 to 3.5. -/
theorem detect_changes_gpa_event_witness :
    (∃ ev ∈ detect_changes
        (some (mkSnap (.obj []) (.obj []) (.obj []) (.obj [("2023/2024", year2324Old)])))
        (mkSnap (.obj []) (.obj []) (.obj []) (.obj [("2023/2024", year2324New)])),
      ContainsStr ev "3.2" ∧ ContainsStr ev "3.5") ∧
    detect_changes
        (some (mkSnap (.obj []) (.obj []) (.obj []) (.obj [("2023/2024", year2324Old)])))
        (mkSnap (.obj []) (.obj []) (.obj []) (.obj [("2023/2024", year2324New)])) =
      ["🎓 GPA updated for 2023/2024: 3.2 → 3.5"] :=
  ⟨detect_changes_gpa_event.1 _ _ "2023/2024" year2324New
      (List.mem_singleton.mpr rfl) (by decide) (by decide),
    detect_changes_gpa_event.2 (.obj []) (.obj []) (.obj []) [] []
      (by decide) (by decide) (by decide)⟩

/-! ## Attendance edits without growth, and brand-new courses -/

/-- C9: a course whose attendance record hash changed but whose detailed
attendance list and warning list both failed to grow strictly produces no
attendance event at all — same-length content edits are silently dropped. -/
theorem attendanceCourseEvents_no_growth (oldRec newRec : Json) (k : String)
    (hne : hash_data oldRec ≠ hash_data newRec)
    (h1 : ¬ pyLen (newRec.getD "detailed_attendance" (.arr [])) >
      pyLen (oldRec.getD "detailed_attendance" (.arr [])))
    (h2 : ¬ pyLen (newRec.getD "warning_courses" (.arr [])) >
      pyLen (oldRec.getD "warning_courses" (.arr []))) :
    attendanceCourseEvents oldRec newRec k = [] := by
  simp only [attendanceCourseEvents, if_pos hne, if_neg h1, if_neg h2]
  rfl

/-- C9 witness: a one-entry attendance list whose content changed in place. -/
theorem attendanceCourseEvents_no_growth_witness :
    attendanceCourseEvents (.obj [("detailed_attendance", .arr [.str "absent"])])
      (.obj [("detailed_attendance", .arr [.str "present"])]) "CS101" = [] :=
  attendanceCourseEvents_no_growth _ _ "CS101" (by decide) (by decide) (by decide)

mutual
/-- Well-formed number literals: every `num` in the value carries nonempty
text, which holds of everything produced by parsing JSON. -/
def numOk : Json → Bool
  | .null => true
  | .bool _ => true
  | .num s => !(s = "")
  | .str _ => true
  | .arr xs => numOkArr xs
  | .obj kvs => numOkObj kvs

/-- `numOk` over the elements of an array. -/
def numOkArr : List Json → Bool
  | [] => true
  | x :: xs => numOk x && numOkArr xs

/-- `numOk` over the values of an object. -/
def numOkObj : List (String × Json) → Bool
  | [] => true
  | (_, v) :: kvs => numOk v && numOkObj kvs
end

theorem numOkObj_lookup (kvs : List (String × Json)) (k : String) (v : Json)
    (h : numOkObj kvs = true) (hv : lookupKV kvs k = some v) : numOk v = true := by
  induction kvs with
  | nil => cases hv
  | cons kv rest ih =>
      obtain ⟨k0, v0⟩ := kv
      rw [numOkObj, Bool.and_eq_true] at h
      by_cases he : k0 = k
      · rw [lookupKV, if_pos he] at hv
        cases hv
        exact h.1
      · rw [lookupKV, if_neg he] at hv
        exact ih h.2 hv

theorem string_length_pos (s : String) (h : s ≠ "") : 0 < s.length := by
  obtain ⟨d⟩ := s
  cases d with
  | nil => exact absurd rfl h
  | cons c cs => simp [String.length]

theorem jserialize_length_pos (j : Json) (h : numOk j = true) :
    0 < (jserialize j).length := by
  cases j with
  | null => decide
  | bool b => cases b <;> decide
  | num s =>
      have hs : s ≠ "" := by
        intro he
        subst he
        exact absurd h (by decide)
      exact string_length_pos s hs
  | str s =>
      show 0 < ("\"" ++ jescape s ++ "\"").length
      rw [String.length_append, String.length_append]
      have h1 : ("\"" : String).length = 1 := rfl
      omega
  | arr xs =>
      show 0 < ("[" ++ sepJoin (jserializeArr xs) ++ "]").length
      rw [String.length_append, String.length_append]
      have h1 : ("[" : String).length = 1 := rfl
      omega
  | obj kvs =>
      show 0 < ("\x7b" ++ _ ++ "\x7d").length
      rw [String.length_append, String.length_append]
      have h1 : ("\x7b" : String).length = 1 := rfl
      omega

theorem entry_render_length (kv : String × String) :
    4 ≤ ("\"" ++ jescape kv.1 ++ "\": " ++ kv.2).length := by
  rw [String.length_append, String.length_append, String.length_append]
  have h1 : ("\"" : String).length = 1 := rfl
  have h2 : ("\": " : String).length = 3 := rfl
  omega

theorem sepJoin_cons_length (y : String) (ys : List String) :
    y.length ≤ (sepJoin (y :: ys)).length := by
  cases ys with
  | nil => exact le_of_eq rfl
  | cons z zs =>
      show y.length ≤ (y ++ ", " ++ sepJoin (z :: zs)).length
      rw [String.length_append, String.length_append]
      omega

theorem hash_obj_nonempty_length (kv : String × Json) (kvs : List (String × Json)) :
    6 ≤ (hash_data (Json.obj (kv :: kvs))).length := by
  cases hS : (sortStrPairs (jserializeObj (kv :: kvs))).map
      (fun kv => "\"" ++ jescape kv.1 ++ "\": " ++ kv.2) with
  | nil =>
      have hlen := congrArg List.length hS
      rw [List.length_map, sortStrPairs, List.length_insertionSort,
        jserializeObj_eq_map, List.length_map] at hlen
      cases hlen
  | cons m0 M =>
      have hm : m0 ∈ (sortStrPairs (jserializeObj (kv :: kvs))).map
          (fun kv => "\"" ++ jescape kv.1 ++ "\": " ++ kv.2) := by
        rw [hS]
        exact List.mem_cons_self m0 M
      obtain ⟨p, _, hpe⟩ := List.mem_map.mp hm
      have hm0 : 4 ≤ m0.length := hpe ▸ entry_render_length p
      have heq : hash_data (Json.obj (kv :: kvs)) =
          "\x7b" ++ sepJoin (m0 :: M) ++ "\x7d" := by
        rw [hash_data, jserialize, hS]
      rw [heq, String.length_append, String.length_append]
      have h4 : 4 ≤ (sepJoin (m0 :: M)).length :=
        le_trans hm0 (sepJoin_cons_length m0 M)
      have hb1 : ("\x7b" : String).length = 1 := rfl
      have hb2 : ("\x7d" : String).length = 1 := rfl
      omega

theorem hash_data_empty_obj_ne (kv : String × Json) (kvs : List (String × Json)) :
    hash_data (Json.obj []) ≠ hash_data (Json.obj (kv :: kvs)) := by
  intro he
  have hl := congrArg String.length he
  have h2 : (hash_data (Json.obj [])).length = 2 := rfl
  have h6 := hash_obj_nonempty_length kv kvs
  omega

theorem hash_data_empty_arr_ne (x : Json) (xs : List Json) (hok : numOk x = true) :
    hash_data (Json.arr []) ≠ hash_data (Json.arr (x :: xs)) := by
  intro he
  have hl := congrArg String.length he
  have h2 : (hash_data (Json.arr [])).length = 2 := rfl
  have heq : hash_data (Json.arr (x :: xs)) =
      "[" ++ sepJoin (jserialize x :: jserializeArr xs) ++ "]" := rfl
  rw [heq, String.length_append, String.length_append] at hl
  have hx : 0 < (jserialize x).length := jserialize_length_pos x hok
  have hj : (jserialize x).length ≤ (sepJoin (jserialize x :: jserializeArr xs)).length :=
    sepJoin_cons_length _ _
  have hb1 : ("[" : String).length = 1 := rfl
  have hb2 : ("]" : String).length = 1 := rfl
  omega

/-- C10: a course that is new in the current detailed-grades map is compared
against the default empty dict: a non-empty grade-entry list yields a
new-grade-entries event whose delta is the whole list length, non-empty
midterm results additionally yield both the new-midterm and the
grade-changes events, and nothing else — there is no dedicated new-course
event. -/
theorem gradeCourseEvents_new_course :
    (∀ (old_map : Json) (k : String), old_map.getOpt k = none →
      old_map.getD k (.obj []) = .obj []) ∧
    (∀ (rec : Json) (k : String) (es ms : List Json),
      numOk rec = true →
      rec.getD "detailed_grades" (.arr []) = .arr es → es ≠ [] →
      rec.getD "midterm_results" (.arr []) = .arr ms →
      gradeCourseEvents (.obj []) rec k =
        ["📝 " ++ toString es.length ++ " new grade entries for " ++ k] ++
          (if ms.isEmpty then []
           else ["🎯 New midterm results for " ++ k,
             "📈 Grade changes detected for " ++ k])) := by
  constructor
  · intro old_map k h
    cases old_map with
    | obj kvs =>
        rw [Json.getOpt] at h
        rw [Json.getD, h]
        rfl
    | null => rfl
    | bool b => rfl
    | num s => rfl
    | str s => rfl
    | arr xs => rfl
  · intro rec k es ms hok hg hes hm
    have hrec : ∃ kv0 rest, rec = Json.obj (kv0 :: rest) := by
      cases rec with
      | obj kvs =>
          cases kvs with
          | nil => exact absurd (Json.arr.inj hg).symm hes
          | cons kv0 rest => exact ⟨kv0, rest, rfl⟩
      | null => exact absurd (Json.arr.inj hg).symm hes
      | bool b => exact absurd (Json.arr.inj hg).symm hes
      | num s => exact absurd (Json.arr.inj hg).symm hes
      | str s => exact absurd (Json.arr.inj hg).symm hes
      | arr xs => exact absurd (Json.arr.inj hg).symm hes
    obtain ⟨kv0, rest, rfl⟩ := hrec
    have hne : hash_data (Json.obj []) ≠ hash_data (Json.obj (kv0 :: rest)) :=
      hash_data_empty_obj_ne kv0 rest
    have h0g : (Json.obj []).getD "detailed_grades" (.arr []) = .arr [] := rfl
    have h0m : (Json.obj []).getD "midterm_results" (.arr []) = .arr [] := rfl
    have hlen : 0 < es.length := List.length_pos.mpr hes
    rw [gradeCourseEvents, if_pos hne]
    simp only [hg, hm, h0g, h0m, pyLen, List.length_nil]
    rw [if_pos hlen, Nat.sub_zero]
    cases ms with
    | nil => simp
    | cons m ms =>
        have hlk : lookupKV (kv0 :: rest) "midterm_results" = some (.arr (m :: ms)) := by
          rw [Json.getD] at hm
          cases hc : lookupKV (kv0 :: rest) "midterm_results" with
          | none => rw [hc] at hm; exact absurd (Json.arr.inj hm).symm (by simp)
          | some v => rw [hc] at hm; rw [Option.getD_some] at hm; rw [hm]
        have hokm : numOk m = true := by
          have hv : numOk (Json.arr (m :: ms)) = true :=
            numOkObj_lookup (kv0 :: rest) "midterm_results" _ hok hlk
          rw [show numOk (Json.arr (m :: ms)) = numOkArr (m :: ms) from rfl,
            numOkArr, Bool.and_eq_true] at hv
          exact hv.1
        rw [if_pos (by simp : 0 < (m :: ms).length),
          if_pos (hash_data_empty_arr_ne m ms hokm)]
        rfl

/-- C10 witness: a brand-new course record with one grade entry and one
midterm result. -/
theorem gradeCourseEvents_new_course_witness :
    (Json.obj [("OTHER", .num "1")]).getD "NEW1" (.obj []) = .obj [] ∧
    gradeCourseEvents (.obj [])
      (.obj [("detailed_grades", .arr [.str "q1"]), ("midterm_results", .arr [.str "mt"])])
      "NEW1" =
      ["📝 1 new grade entries for NEW1"] ++
        ["🎯 New midterm results for NEW1", "📈 Grade changes detected for NEW1"] :=
  ⟨gradeCourseEvents_new_course.1 (Json.obj [("OTHER", .num "1")]) "NEW1" rfl,
    by
      have h := gradeCourseEvents_new_course.2
        (.obj [("detailed_grades", .arr [.str "q1"]), ("midterm_results", .arr [.str "mt"])])
        "NEW1" [.str "q1"] [.str "mt"] (by decide) rfl (by simp) rfl
      simpa using h⟩

/-! ## Orchestration claims -/

/-- C7: a run whose discovery step finds no course aborts before any
detailed fetch — the request log stays at the three summary calls — and
saves no snapshot. -/
theorem run_monitoring_no_courses (api : ApiHandler) (previous : Option Json)
    (h : (extract_courses_and_years (fetch_summary_data api).1).1 = []) :
    run_monitoring api previous = ⟨(fetch_summary_data api).2, none, []⟩ ∧
    (run_monitoring api previous).log.length = 3 := by
  have hrun : run_monitoring api previous = ⟨(fetch_summary_data api).2, none, []⟩ := by
    rw [run_monitoring]
    simp only [h, List.isEmpty_nil, if_true]
  exact ⟨hrun, by rw [hrun]; rfl⟩

/-- A network that never returns data. -/
def apiNoData : ApiHandler := fun _ _ => none

/-- C7 witness: with no data at all, discovery finds no course and the run
stops at the three summary requests without saving. -/
theorem run_monitoring_no_courses_witness :
    run_monitoring apiNoData none = ⟨(fetch_summary_data apiNoData).2, none, []⟩ ∧
    (run_monitoring apiNoData none).log.length = 3 :=
  run_monitoring_no_courses apiNoData none rfl

/-- C8: while assembling one snapshot, each summary endpoint is requested by
exactly one parameterless client call (the only parameterless calls in the
log are the three summary ones, in order), and the stored summary is
exactly the payload of those single calls. -/
theorem fetch_detailed_data_summary_calls (api : ApiHandler) (courses : List Json)
    (years : List (String × Json)) :
    ((fetch_detailed_data api courses years).2.filter fun r => r.params.isEmpty) =
      [⟨"grades", []⟩, ⟨"attendance", []⟩, ⟨"transcript", []⟩] ∧
    ((fetch_detailed_data api courses years).2.countP
      fun r => r.endpoint == "grades" && r.params.isEmpty) = 1 ∧
    ((fetch_detailed_data api courses years).2.countP
      fun r => r.endpoint == "attendance" && r.params.isEmpty) = 1 ∧
    ((fetch_detailed_data api courses years).2.countP
      fun r => r.endpoint == "transcript" && r.params.isEmpty) = 1 ∧
    (fetch_detailed_data api courses years).1.getD "summary" (.obj []) =
      Json.obj [("grades", optJson (api "grades" [])),
                ("attendance", optJson (api "attendance" [])),
                ("transcript", optJson (api "transcript" []))] := by
  have hlog : (fetch_detailed_data api courses years).2 =
      (fetch_summary_data api).2 ++
        (courses.map (fun cc => (⟨"grades", [("course_code", cc)]⟩ : ApiReq)) ++
          (courses.map (fun cc => (⟨"attendance", [("course_code", cc)]⟩ : ApiReq)) ++
            years.map (fun y => (⟨"transcript", [("year_value", y.2)]⟩ : ApiReq)))) := by
    rw [fetch_detailed_data]
    simp [List.append_assoc]
  have hparams : ∀ r ∈ courses.map (fun cc => (⟨"grades", [("course_code", cc)]⟩ : ApiReq)) ++
      (courses.map (fun cc => (⟨"attendance", [("course_code", cc)]⟩ : ApiReq)) ++
        years.map (fun y => (⟨"transcript", [("year_value", y.2)]⟩ : ApiReq))),
      r.params.isEmpty = false := by
    intro r hr
    rcases List.mem_append.mp hr with hr | hr
    · obtain ⟨cc, _, rfl⟩ := List.mem_map.mp hr; rfl
    · rcases List.mem_append.mp hr with hr | hr
      · obtain ⟨cc, _, rfl⟩ := List.mem_map.mp hr; rfl
      · obtain ⟨y, _, rfl⟩ := List.mem_map.mp hr; rfl
  refine ⟨?_, ?_, ?_, ?_, ?_⟩
  · rw [hlog, List.filter_append]
    have h1 : ((fetch_summary_data api).2.filter fun r => r.params.isEmpty) =
        [⟨"grades", []⟩, ⟨"attendance", []⟩, ⟨"transcript", []⟩] := rfl
    have h2 : ((courses.map (fun cc => (⟨"grades", [("course_code", cc)]⟩ : ApiReq)) ++
        (courses.map (fun cc => (⟨"attendance", [("course_code", cc)]⟩ : ApiReq)) ++
          years.map (fun y => (⟨"transcript", [("year_value", y.2)]⟩ : ApiReq)))).filter
        fun r => r.params.isEmpty) = [] := by
      rw [List.filter_eq_nil_iff]
      intro r hr
      simp [hparams r hr]
    rw [h1, h2, List.append_nil]
  · rw [hlog, List.countP_append]
    have h1 : ((fetch_summary_data api).2.countP
        fun r => r.endpoint == "grades" && r.params.isEmpty) = 1 := rfl
    have h2 : ((courses.map (fun cc => (⟨"grades", [("course_code", cc)]⟩ : ApiReq)) ++
        (courses.map (fun cc => (⟨"attendance", [("course_code", cc)]⟩ : ApiReq)) ++
          years.map (fun y => (⟨"transcript", [("year_value", y.2)]⟩ : ApiReq)))).countP
        fun r => r.endpoint == "grades" && r.params.isEmpty) = 0 := by
      rw [List.countP_eq_zero]
      intro r hr
      simp [hparams r hr]
    rw [h1, h2]
  · rw [hlog, List.countP_append]
    have h1 : ((fetch_summary_data api).2.countP
        fun r => r.endpoint == "attendance" && r.params.isEmpty) = 1 := rfl
    have h2 : ((courses.map (fun cc => (⟨"grades", [("course_code", cc)]⟩ : ApiReq)) ++
        (courses.map (fun cc => (⟨"attendance", [("course_code", cc)]⟩ : ApiReq)) ++
          years.map (fun y => (⟨"transcript", [("year_value", y.2)]⟩ : ApiReq)))).countP
        fun r => r.endpoint == "attendance" && r.params.isEmpty) = 0 := by
      rw [List.countP_eq_zero]
      intro r hr
      simp [hparams r hr]
    rw [h1, h2]
  · rw [hlog, List.countP_append]
    have h1 : ((fetch_summary_data api).2.countP
        fun r => r.endpoint == "transcript" && r.params.isEmpty) = 1 := rfl
    have h2 : ((courses.map (fun cc => (⟨"grades", [("course_code", cc)]⟩ : ApiReq)) ++
        (courses.map (fun cc => (⟨"attendance", [("course_code", cc)]⟩ : ApiReq)) ++
          years.map (fun y => (⟨"transcript", [("year_value", y.2)]⟩ : ApiReq)))).countP
        fun r => r.endpoint == "transcript" && r.params.isEmpty) = 0 := by
      rw [List.countP_eq_zero]
      intro r hr
      simp [hparams r hr]
    rw [h1, h2]
  · rfl
